import Mathlib

/-!
A shallow embedding of the failure-classification pipeline of the
rust-warp-server repository.

Embedded source:
  - handle-errors/src/lib.rs : the Error taxonomy, APILayerError, the
    Display instances, and the recovery function return_error.
  - src/types/pagination.rs : Pagination and extract_pagination.

Modelling conventions:
  - Machine integers (u32, u16) are Nat with explicit range checks where
    the source checks them; Rust's u32 string parsing is embedded as
    parseU32, including the empty / invalid-digit / positive-overflow
    error cases of core::num::ParseIntError.
  - A Rust panic (an unwrap on None or Err) is represented by the value
    none in the Option-typed response of the classification result.
  - warp's Rejection is a finite sequence of attached failure signals in
    attachment order; Rejection::find probes the causes in that order and
    yields the first signal of the requested Rust type, which is embedded
    by the findError / findBody / findCors functions below.
  - Library error values whose content the classifier only ever renders
    (reqwest errors, argon2 errors, migration errors, the message text of
    warp's BodyDeserializeError and CorsForbidden) are embedded as the
    String produced by their Display implementation.
  - tracing's event! macro is embedded as the single (severity, message)
    log record carried in the classification result; the stdout println!
    debug line and the #[instrument] span are not diagnostic log events
    and are not modelled.
-/

/-- Rust core::num::ParseIntError kinds reachable from u32's FromStr. -/
inductive ParseIntError where
  | empty
  | invalidDigit
  | posOverflow
deriving DecidableEq, Repr

/-- Display of core::num::ParseIntError for the reachable kinds. -/
def ParseIntError.description : ParseIntError → String
  | .empty => "cannot parse integer from empty string"
  | .invalidDigit => "invalid digit found in string"
  | .posOverflow => "number too large to fit in target type"

/-- Largest value of Rust's u32. -/
def U32_MAX : Nat := 4294967295

/-- Digit-accumulation loop of Rust's from_str_radix at radix 10 for u32:
per character, digit validity is checked first, then the checked multiply
and checked add, which fail with a positive overflow. -/
def parseU32Loop : Nat → List Char → Except ParseIntError Nat
  | acc, [] => .ok acc
  | acc, c :: cs =>
    if c.isDigit then
      let x := c.toNat - Char.toNat (Char.ofNat 48)
      if acc * 10 > U32_MAX then .error .posOverflow
      else if acc * 10 + x > U32_MAX then .error .posOverflow
      else parseU32Loop (acc * 10 + x) cs
    else .error .invalidDigit

/-- Rust u32::from_str: empty input is rejected, one leading plus sign is
allowed when digits follow it, a leading minus sign on an unsigned type is
an invalid digit, then the digit loop runs. -/
def parseU32 (s : String) : Except ParseIntError Nat :=
  match s.data with
  | [] => .error .empty
  | c :: rest =>
    if c = Char.ofNat 43 then
      if rest.isEmpty then .error .invalidDigit else parseU32Loop 0 rest
    else if c = Char.ofNat 45 then .error .invalidDigit
    else parseU32Loop 0 (c :: rest)

/-- DUPLICATE_KEY constant of handle-errors/src/lib.rs. -/
def DUPLICATE_KEY : Nat := 23505

/-- sqlx::Error as the classifier observes it: the Database variant
carries a database-level error exposing an optional error code and a
message; every other sqlx::Error variant is collapsed into Other carrying
its rendered message, which the classifier never inspects. -/
inductive SqlxError where
  | Database (code : Option String) (message : String)
  | Other (message : String)
deriving DecidableEq, Repr

/-- APILayerError of handle-errors/src/lib.rs. -/
structure APILayerError where
  status : Nat
  message : String
deriving DecidableEq, Repr

/-- Display for APILayerError. -/
def APILayerError.display (e : APILayerError) : String :=
  "Status: " ++ toString e.status ++ ", Message: " ++ e.message

/-- The Error enum of handle-errors/src/lib.rs. -/
inductive Error where
  | ParseError (e : ParseIntError)
  | MissingParameters
  | WrongPassword
  | CannotDecryptToken
  | Unauthorized
  | ArgonLibraryError (e : String)
  | QuestionNotFound
  | DatabaseQueryError (e : SqlxError)
  | MigrationError (e : String)
  | ReqwestAPIError (e : String)
  | MiddlewareReqwestError (e : String)
  | ClientError (e : APILayerError)
  | ServerError (e : APILayerError)
deriving DecidableEq, Repr

/-- Display for Error, string for string from the source. -/
def Error.display : Error → String
  | .ParseError e => "Cannot parse parameter: " ++ e.description
  | .MissingParameters => "Missing parameter"
  | .WrongPassword => "Wrong password"
  | .CannotDecryptToken => "Cannot decrypt error"
  | .Unauthorized => "No permisssion to change the underlying rsource"
  | .ArgonLibraryError _ => "Connot verify password"
  | .QuestionNotFound => "Question not found"
  | .DatabaseQueryError _ => "Cannot update, invalid data."
  | .MigrationError _ => "Cannot migrate data"
  | .ReqwestAPIError e => "External API Error: " ++ e
  | .MiddlewareReqwestError e => "External API Error: " ++ e
  | .ClientError e => "External Client error: " ++ e.display
  | .ServerError e => "External Server error: " ++ e.display

/-- One failure signal attached to a warp Rejection: a handle_errors
Error, a BodyDeserializeError (carrying its Display text), a CorsForbidden
(carrying its Display text), or any framework rejection of a type the
classifier never probes (method not allowed, the not-found marker, ...). -/
inductive Signal where
  | err (e : Error)
  | bodyDeserialize (msg : String)
  | corsForbidden (msg : String)
  | other (tag : String)
deriving DecidableEq, Repr

/-- Rejection::find::<Error>: first attached Error, in attachment order. -/
def findError : List Signal → Option Error
  | [] => none
  | .err e :: _ => some e
  | _ :: r => findError r

/-- Rejection::find::<BodyDeserializeError>: its first Display text. -/
def findBody : List Signal → Option String
  | [] => none
  | .bodyDeserialize m :: _ => some m
  | _ :: r => findBody r

/-- Rejection::find::<CorsForbidden>: its first Display text. -/
def findCors : List Signal → Option String
  | [] => none
  | .corsForbidden m :: _ => some m
  | _ :: r => findCors r

/-- tracing severity levels used by return_error. -/
inductive Level where
  | error
  | warn
deriving DecidableEq, Repr

/-- An HTTP reply: warp::reply::with_status over a body string. -/
structure Response where
  status : Nat
  body : String
deriving DecidableEq, Repr

/-- What one invocation of return_error does: the single event! record it
emits, and the reply it returns, where none stands for a panic (the
branch unwraps a missing or unparseable database error code after having
already emitted its log event). -/
structure ClassifyResult where
  log : Level × String
  response : Option Response
deriving DecidableEq, Repr

/-- The match on the embedded sqlx::Error inside the DatabaseQueryError
branch of return_error: err.code().unwrap().parse::<u32>().unwrap() is a
panic (none) when the code is absent or does not parse as a u32; the
catch-all arm for non-Database sqlx errors replies with the source's
literal body text. -/
def classifyDb : SqlxError → Option Response
  | .Database code _ =>
    match code with
    | none => none
    | some c =>
      match parseU32 c with
      | .error _ => none
      | .ok n =>
        if n = DUPLICATE_KEY then some ⟨422, "Account already exists"⟩
        else some ⟨422, "Cannot update data"⟩
  | .Other _ => some ⟨422, "Cannot not update data"⟩

/-- The if-else chain of return_error as a function of the three find
results. Each arm of the source probes Rejection::find again, and find is
a pure function of the rejection, so the chain is exactly a function of
the first Error, the first BodyDeserializeError text and the first
CorsForbidden text. -/
def dispatch (fe : Option Error) (fb : Option String) (fc : Option String) : ClassifyResult :=
  match fe with
  | some (.DatabaseQueryError e) =>
      ⟨(.error, "Database query error"), classifyDb e⟩
  | some (.ReqwestAPIError e) =>
      ⟨(.error, e), some ⟨500, "Internal Server Error"⟩⟩
  | some .Unauthorized =>
      ⟨(.error, "Not matching account id"),
        some ⟨401, "No permission to changing underlying resource"⟩⟩
  | some .WrongPassword =>
      ⟨(.error, "Entered wrong password"),
        some ⟨401, "Wrong E-Mail/Password combination"⟩⟩
  | some (.MiddlewareReqwestError e) =>
      ⟨(.error, e), some ⟨500, "Internal Server Error"⟩⟩
  | some (.ClientError e) =>
      ⟨(.error, e.display), some ⟨500, "Internal Server Error"⟩⟩
  | some (.ServerError e) =>
      ⟨(.error, e.display), some ⟨500, "Internal Server Error"⟩⟩
  | fe' =>
    match fb with
    | some m =>
        ⟨(.error, "Cannot deserizalize request body: " ++ m), some ⟨422, m⟩⟩
    | none =>
      match fe' with
      | some e =>
          ⟨(.error, e.display), some ⟨416, e.display⟩⟩
      | none =>
        match fc with
        | some m =>
            ⟨(.error, "CORS forbidden error: " ++ m), some ⟨403, m⟩⟩
        | none =>
            ⟨(.warn, "Requested route was not found"),
              some ⟨404, "Route not found"⟩⟩

/-- return_error of handle-errors/src/lib.rs on the attached signals. -/
def return_error (r : List Signal) : ClassifyResult :=
  dispatch (findError r) (findBody r) (findCors r)

/-- Pagination struct of src/types/pagination.rs. -/
structure Pagination where
  limit : Option Nat
  offset : Nat
deriving DecidableEq, Repr

/-- HashMap::contains_key on the embedded parameter map. -/
def containsKey (params : List (String × String)) (k : String) : Bool :=
  (params.lookup k).isSome

/-- HashMap::get(..).unwrap() on the embedded parameter map; only called
under a containsKey guard in the source, so the default is unreachable. -/
def getVal (params : List (String × String)) (k : String) : String :=
  (params.lookup k).getD ""

/-- extract_pagination of src/types/pagination.rs: the struct literal
parses the limit field first, so a failing limit parse returns before the
offset value is parsed. -/
def extract_pagination (params : List (String × String)) : Except Error Pagination :=
  if containsKey params "limit" && containsKey params "offset" then
    match parseU32 (getVal params "limit") with
    | .error e => .error (.ParseError e)
    | .ok lv =>
      match parseU32 (getVal params "offset") with
      | .error e => .error (.ParseError e)
      | .ok ov => .ok ⟨some lv, ov⟩
  else
    .error .MissingParameters

/-- The Error signals of a rejection, in attachment order. -/
def errSignals (r : List Signal) : List Error :=
  r.filterMap fun s =>
    match s with
    | .err e => some e
    | _ => none

/-- The BodyDeserializeError texts of a rejection, in attachment order. -/
def bodySignals (r : List Signal) : List String :=
  r.filterMap fun s =>
    match s with
    | .bodyDeserialize m => some m
    | _ => none

/-- The CorsForbidden texts of a rejection, in attachment order. -/
def corsSignals (r : List Signal) : List String :=
  r.filterMap fun s =>
    match s with
    | .corsForbidden m => some m
    | _ => none

/-- Whether the character list t occurs at the head of the list s. -/
def leadsList : List Char → List Char → Bool
  | [], _ => true
  | _ :: _, [] => false
  | a :: as, b :: bs => a = b && leadsList as bs

/-- Whether the character list t occurs contiguously inside the list s. -/
def hasSeg (s t : List Char) : Bool :=
  match s with
  | [] => t.isEmpty
  | _ :: rest => leadsList t s || hasSeg rest t

/-- Whether the string t occurs contiguously inside the string s. -/
def containsText (s t : String) : Bool :=
  hasSeg s.data t.data

/-- C1: the claim says return_error is total and never fails, in
particular when a DatabaseQueryError embeds a driver error whose code is
absent or non-numeric; the code instead unwraps the optional code and the
u32 parse, so on exactly those inputs it panics after emitting its log
event and produces no response pair. -/
theorem return_error_panics_on_bad_db_code :
    (return_error [Signal.err (.DatabaseQueryError (.Database none "db down"))]).response
      = none
  ∧ (return_error [Signal.err (.DatabaseQueryError (.Database (some "42P01") "missing table"))]).response
      = none := ⟨rfl, rfl⟩

/-- C2: a duplicate-key code 23505 yields (422, Account already exists)
and a database-level error with another numeric code yields (422, Cannot
update data), as claimed; but a non-database-level driver error yields
the body "Cannot not update data" (the source's literal text), and an
absent or non-numeric code panics, both diverging from the claim's
"Cannot update data". -/
theorem return_error_db_branch_eval :
    (return_error [Signal.err (.DatabaseQueryError (.Database (some "23505") "dup"))]).response
      = some ⟨422, "Account already exists"⟩
  ∧ (return_error [Signal.err (.DatabaseQueryError (.Database (some "40001") "ser"))]).response
      = some ⟨422, "Cannot update data"⟩
  ∧ (return_error [Signal.err (.DatabaseQueryError (.Other "row not found"))]).response
      = some ⟨422, "Cannot not update data"⟩
  ∧ (return_error [Signal.err (.DatabaseQueryError (.Database none "no code"))]).response
      = none := ⟨rfl, rfl, rfl, rfl⟩

/-- C3: feeding each FailureKind other than DatabaseQueryError alone into
return_error yields exactly the pair of the response table: the four
external kinds give (500, Internal Server Error), Unauthorized and
WrongPassword give their 401 bodies, and the six remaining kinds give
(416, the kind's rendered Display message). -/
theorem return_error_single_kind_table :
    (∀ e, (return_error [Signal.err (.ReqwestAPIError e)]).response
      = some ⟨500, "Internal Server Error"⟩)
  ∧ (∀ e, (return_error [Signal.err (.MiddlewareReqwestError e)]).response
      = some ⟨500, "Internal Server Error"⟩)
  ∧ (∀ e, (return_error [Signal.err (.ClientError e)]).response
      = some ⟨500, "Internal Server Error"⟩)
  ∧ (∀ e, (return_error [Signal.err (.ServerError e)]).response
      = some ⟨500, "Internal Server Error"⟩)
  ∧ (return_error [Signal.err .Unauthorized]).response
      = some ⟨401, "No permission to changing underlying resource"⟩
  ∧ (return_error [Signal.err .WrongPassword]).response
      = some ⟨401, "Wrong E-Mail/Password combination"⟩
  ∧ (∀ e, (return_error [Signal.err (.ParseError e)]).response
      = some ⟨416, Error.display (.ParseError e)⟩)
  ∧ (return_error [Signal.err .MissingParameters]).response
      = some ⟨416, Error.display .MissingParameters⟩
  ∧ (return_error [Signal.err .CannotDecryptToken]).response
      = some ⟨416, Error.display .CannotDecryptToken⟩
  ∧ (∀ e, (return_error [Signal.err (.ArgonLibraryError e)]).response
      = some ⟨416, Error.display (.ArgonLibraryError e)⟩)
  ∧ (return_error [Signal.err .QuestionNotFound]).response
      = some ⟨416, Error.display .QuestionNotFound⟩
  ∧ (∀ e, (return_error [Signal.err (.MigrationError e)]).response
      = some ⟨416, Error.display (.MigrationError e)⟩) :=
  ⟨fun _ => rfl, fun _ => rfl, fun _ => rfl, fun _ => rfl, rfl, rfl,
    fun _ => rfl, rfl, rfl, fun _ => rfl, rfl, fun _ => rfl⟩

/-- C4 counterexample: attaching WrongPassword then Unauthorized yields
the WrongPassword response, while attaching the same two signals in the
other order yields the Unauthorized response, so the response depends on
attachment order and does not always follow the dispatch order, which
ranks Unauthorized before WrongPassword. -/
theorem return_error_depends_on_attachment_order :
    (return_error [Signal.err .WrongPassword, Signal.err .Unauthorized]).response
      = some ⟨401, "Wrong E-Mail/Password combination"⟩
  ∧ (return_error [Signal.err .Unauthorized, Signal.err .WrongPassword]).response
      = some ⟨401, "No permission to changing underlying resource"⟩ := ⟨rfl, rfl⟩

/-- C5 counterexample: the rendered message of ParseError is parameterized
by the embedded parse failure — two ParseError values render differently,
and the rendering, which reaches the client through the 416 branch,
contains the embedded library error's text verbatim. -/
theorem parse_error_display_is_parameterized :
    Error.display (.ParseError .invalidDigit) ≠ Error.display (.ParseError .empty)
  ∧ Error.display (.ParseError .invalidDigit)
      = "Cannot parse parameter: " ++ ParseIntError.description .invalidDigit
  ∧ (return_error [Signal.err (.ParseError .invalidDigit)]).response
      = some ⟨416, "Cannot parse parameter: invalid digit found in string"⟩
  ∧ containsText (Error.display (.ParseError .invalidDigit))
      (ParseIntError.description .invalidDigit) = true :=
  ⟨by decide, rfl, rfl, by decide⟩

/-- C5 amended: of the six kinds reachable through the 416 fallback, the
five other than ParseError render fixed strings independent of any
embedded error, while ParseError's rendering appends the embedded parse
failure's description. -/
theorem error_display_fixed_except_parse :
    Error.display .MissingParameters = "Missing parameter"
  ∧ Error.display .CannotDecryptToken = "Cannot decrypt error"
  ∧ Error.display .QuestionNotFound = "Question not found"
  ∧ (∀ e, Error.display (.ArgonLibraryError e) = "Connot verify password")
  ∧ (∀ e, Error.display (.MigrationError e) = "Cannot migrate data")
  ∧ (∀ e, Error.display (.ParseError e)
      = "Cannot parse parameter: " ++ e.description) :=
  ⟨rfl, rfl, rfl, fun _ => rfl, fun _ => rfl, fun _ => rfl⟩

/-- C6 counterexample: two requests differing only in the embedded driver
error (code 23505 versus code 40001, same message) receive different
bodies from the Database branch, so the body is not independent of the
embedded driver error. -/
theorem db_body_depends_on_driver_code :
    (return_error [Signal.err (.DatabaseQueryError (.Database (some "23505") "duplicate key value"))]).response
      = some ⟨422, "Account already exists"⟩
  ∧ (return_error [Signal.err (.DatabaseQueryError (.Database (some "40001") "duplicate key value"))]).response
      = some ⟨422, "Cannot update data"⟩ := ⟨rfl, rfl⟩

/-- Helper: two permuted lists of length at most one are equal. -/
theorem perm_eq_of_len_le_one {α : Type} {a b : List α} (p : a.Perm b)
    (h : a.length ≤ 1) : a = b := by
  cases a with
  | nil => exact (p.symm.eq_nil).symm
  | cons x as =>
    cases as with
    | nil => exact List.singleton_perm.mp p
    | cons y bs => simp at h

/-- Helper: find::<Error> is the head of the Error signals. -/
theorem findError_eq_head (r : List Signal) :
    findError r = (errSignals r).head? := by
  induction r with
  | nil => rfl
  | cons s rest ih => cases s <;> simp [findError, errSignals, List.filterMap_cons, ih]

/-- Helper: find::<BodyDeserializeError> is the head of the body texts. -/
theorem findBody_eq_head (r : List Signal) :
    findBody r = (bodySignals r).head? := by
  induction r with
  | nil => rfl
  | cons s rest ih => cases s <;> simp [findBody, bodySignals, List.filterMap_cons, ih]

/-- Helper: find::<CorsForbidden> is the head of the CORS texts. -/
theorem findCors_eq_head (r : List Signal) :
    findCors r = (corsSignals r).head? := by
  induction r with
  | nil => rfl
  | cons s rest ih => cases s <;> simp [findCors, corsSignals, List.filterMap_cons, ih]

/-- C4 amended: when at most one signal of each probed channel is attached
(at most one Error, one malformed-body signal, one CORS signal), the
response is independent of the attachment order; with two Errors attached
the classifier dispatches on the first-attached one, as the counterexample
shows. -/
theorem return_error_perm_invariant (l₁ l₂ : List Signal) (hp : l₁.Perm l₂)
    (he : (errSignals l₁).length ≤ 1) (hb : (bodySignals l₁).length ≤ 1)
    (hc : (corsSignals l₁).length ≤ 1) :
    return_error l₁ = return_error l₂ := by
  have he2 : errSignals l₁ = errSignals l₂ :=
    perm_eq_of_len_le_one (hp.filterMap _) he
  have hb2 : bodySignals l₁ = bodySignals l₂ :=
    perm_eq_of_len_le_one (hp.filterMap _) hb
  have hc2 : corsSignals l₁ = corsSignals l₂ :=
    perm_eq_of_len_le_one (hp.filterMap _) hc
  unfold return_error
  rw [findError_eq_head, findError_eq_head, findBody_eq_head, findBody_eq_head,
    findCors_eq_head, findCors_eq_head, he2, hb2, hc2]

/-- Witness for the amended C4 theorem at a concrete two-signal swap. -/
theorem return_error_perm_invariant_witness :
    return_error [Signal.err .Unauthorized, Signal.bodyDeserialize "bad body"]
      = return_error [Signal.bodyDeserialize "bad body", Signal.err .Unauthorized] :=
  return_error_perm_invariant _ _ (List.Perm.swap _ _ _)
    (by decide) (by decide) (by decide)

/-- C6 amended: the four external branches reply with the constant body
Internal Server Error whatever the embedded detail; the Database branch's
reply is a function of the embedded driver error that never depends on its
message text, only on its variant and code, and the code does select
between two fixed bodies. -/
theorem external_db_bodies_independent_of_detail (r : List Signal) :
    (∀ e, findError r = some (.ReqwestAPIError e) →
      (return_error r).response = some ⟨500, "Internal Server Error"⟩)
  ∧ (∀ e, findError r = some (.MiddlewareReqwestError e) →
      (return_error r).response = some ⟨500, "Internal Server Error"⟩)
  ∧ (∀ e, findError r = some (.ClientError e) →
      (return_error r).response = some ⟨500, "Internal Server Error"⟩)
  ∧ (∀ e, findError r = some (.ServerError e) →
      (return_error r).response = some ⟨500, "Internal Server Error"⟩)
  ∧ (∀ e, findError r = some (.DatabaseQueryError e) →
      (return_error r).response = classifyDb e)
  ∧ (∀ code m m', classifyDb (.Database code m) = classifyDb (.Database code m'))
  ∧ (∀ m m', classifyDb (.Other m) = classifyDb (.Other m')) := by
  refine ⟨?_, ?_, ?_, ?_, ?_, ?_, ?_⟩
  · intro e h
    unfold return_error
    rw [h]
    exact rfl
  · intro e h
    unfold return_error
    rw [h]
    exact rfl
  · intro e h
    unfold return_error
    rw [h]
    exact rfl
  · intro e h
    unfold return_error
    rw [h]
    exact rfl
  · intro e h
    unfold return_error
    rw [h]
    exact rfl
  · intro code m m'
    rfl
  · intro m m'
    rfl

/-- Witness for the amended C6 theorem on concrete rejections. -/
theorem external_db_bodies_independent_witness :
    (return_error [Signal.err (.ReqwestAPIError "connection refused")]).response
      = some ⟨500, "Internal Server Error"⟩
  ∧ (return_error [Signal.err (.DatabaseQueryError (.Database (some "23505") "detail A"))]).response
      = classifyDb (.Database (some "23505") "detail A")
  ∧ classifyDb (.Database (some "23505") "detail A")
      = classifyDb (.Database (some "23505") "detail B") :=
  ⟨(external_db_bodies_independent_of_detail
      [Signal.err (.ReqwestAPIError "connection refused")]).1 "connection refused" rfl,
    (external_db_bodies_independent_of_detail
      [Signal.err (.DatabaseQueryError (.Database (some "23505") "detail A"))]).2.2.2.2.1
      (.Database (some "23505") "detail A") rfl,
    (external_db_bodies_independent_of_detail []).2.2.2.2.2.1
      (some "23505") "detail A" "detail B"⟩

/-- C7 counterexample: the Database branch logs the fixed text Database
query error, which does not include the embedded driver error's message,
so the log event does not always carry the full internal detail. -/
theorem db_branch_log_omits_driver_detail :
    (return_error [Signal.err (.DatabaseQueryError
        (.Database (some "40001") "connection reset by peer"))]).log
      = (Level.error, "Database query error")
  ∧ containsText "Database query error" "connection reset by peer" = false :=
  ⟨rfl, rfl⟩

/-- C7 amended: every branch emits one log record, WARN exactly when no
probed signal is present and ERROR otherwise; the external branches log
the embedded detail in full, but the Database branch logs only the fixed
text Database query error, and the 416 fallback for CredentialHashingError
and MigrationError logs their fixed renderings without the embedded
library error. -/
theorem log_severity_and_detail (r : List Signal) :
    ((return_error r).log.1 = Level.warn ↔
      findError r = none ∧ findBody r = none ∧ findCors r = none)
  ∧ (∀ e, findError r = some (.ReqwestAPIError e) → (return_error r).log.2 = e)
  ∧ (∀ e, findError r = some (.MiddlewareReqwestError e) → (return_error r).log.2 = e)
  ∧ (∀ e, findError r = some (.ClientError e) → (return_error r).log.2 = e.display)
  ∧ (∀ e, findError r = some (.ServerError e) → (return_error r).log.2 = e.display)
  ∧ (∀ e, findError r = some (.DatabaseQueryError e) →
      (return_error r).log.2 = "Database query error")
  ∧ (∀ e, findError r = some (.ArgonLibraryError e) → findBody r = none →
      (return_error r).log.2 = "Connot verify password")
  ∧ (∀ e, findError r = some (.MigrationError e) → findBody r = none →
      (return_error r).log.2 = "Cannot migrate data") := by
  refine ⟨?_, ?_, ?_, ?_, ?_, ?_, ?_, ?_⟩
  · unfold return_error
    cases hfe : findError r with
    | some e =>
      cases e <;>
        (cases hfb : findBody r with
         | some m =>
           exact iff_of_false (fun h => Level.noConfusion h)
             (fun h => Option.noConfusion h.1)
         | none =>
           cases hfc : findCors r with
           | some m =>
             exact iff_of_false (fun h => Level.noConfusion h)
               (fun h => Option.noConfusion h.1)
           | none =>
             exact iff_of_false (fun h => Level.noConfusion h)
               (fun h => Option.noConfusion h.1))
    | none =>
      cases hfb : findBody r with
      | some m =>
        exact iff_of_false (fun h => Level.noConfusion h)
          (fun h => Option.noConfusion h.2.1)
      | none =>
        cases hfc : findCors r with
        | some m =>
          exact iff_of_false (fun h => Level.noConfusion h)
            (fun h => Option.noConfusion h.2.2)
        | none => exact iff_of_true rfl ⟨rfl, rfl, rfl⟩
  · intro e h
    unfold return_error
    rw [h]
    exact rfl
  · intro e h
    unfold return_error
    rw [h]
    exact rfl
  · intro e h
    unfold return_error
    rw [h]
    exact rfl
  · intro e h
    unfold return_error
    rw [h]
    exact rfl
  · intro e h
    unfold return_error
    rw [h]
    exact rfl
  · intro e h hb
    unfold return_error
    rw [h, hb]
    exact rfl
  · intro e h hb
    unfold return_error
    rw [h, hb]
    exact rfl

/-- Witness for the amended C7 theorem on concrete rejections. -/
theorem log_severity_and_detail_witness :
    (return_error [Signal.other "NotFound"]).log.1 = Level.warn
  ∧ (return_error [Signal.err (.ReqwestAPIError "timed out")]).log.2 = "timed out"
  ∧ (return_error [Signal.err (.ArgonLibraryError "argon detail")]).log.2
      = "Connot verify password" :=
  ⟨(log_severity_and_detail _).1.mpr ⟨rfl, rfl, rfl⟩,
    (log_severity_and_detail _).2.1 "timed out" rfl,
    (log_severity_and_detail _).2.2.2.2.2.2.1 "argon detail" rfl rfl⟩

/-- C8: when no probed signal is attached (such as a rejection carrying
only framework markers the classifier never probes, or none at all), the
classifier logs at WARN and replies (404, Route not found). -/
theorem no_signal_gives_404 (r : List Signal) (he : findError r = none)
    (hb : findBody r = none) (hc : findCors r = none) :
    return_error r
      = ⟨(Level.warn, "Requested route was not found"),
          some ⟨404, "Route not found"⟩⟩ := by
  unfold return_error
  rw [he, hb, hc]
  exact rfl

/-- Witness for C8 at a concrete unprobed rejection. -/
theorem no_signal_gives_404_witness :
    return_error [Signal.other "MethodNotAllowed"]
      = ⟨(Level.warn, "Requested route was not found"),
          some ⟨404, "Route not found"⟩⟩ :=
  no_signal_gives_404 _ rfl rfl rfl

/-- C9: when the offset or the limit key is absent from the query
parameter map, extract_pagination returns MissingParameters, and feeding
that kind into the classifier yields (416, Missing parameter). -/
theorem missing_pagination_params (params : List (String × String))
    (h : params.lookup "offset" = none ∨ params.lookup "limit" = none) :
    extract_pagination params = .error .MissingParameters
  ∧ (return_error [Signal.err .MissingParameters]).response
      = some ⟨416, "Missing parameter"⟩ := by
  constructor
  · unfold extract_pagination containsKey
    rcases h with h | h <;> simp [h]
  · exact rfl

/-- Witness for C9 at a map holding only the limit key. -/
theorem missing_pagination_params_witness :
    extract_pagination [("limit", "5")] = .error .MissingParameters
  ∧ (return_error [Signal.err .MissingParameters]).response
      = some ⟨416, "Missing parameter"⟩ :=
  missing_pagination_params [("limit", "5")] (Or.inl rfl)

/-- Helper: with both keys present, extract_pagination reduces to the
parse of the limit value followed by the parse of the offset value. -/
theorem extract_pagination_of_present (params : List (String × String))
    (ls os : String) (hl : params.lookup "limit" = some ls)
    (ho : params.lookup "offset" = some os) :
    extract_pagination params =
      (match parseU32 ls with
        | .error e => .error (.ParseError e)
        | .ok lv =>
          match parseU32 os with
          | .error e => .error (.ParseError e)
          | .ok ov => .ok ⟨some lv, ov⟩) := by
  unfold extract_pagination containsKey getVal
  rw [hl, ho]
  exact rfl

/-- C10: extract_pagination returns Ok exactly when both the limit and
the offset key are present and both values parse as u32, in which case
limit is some of the parsed limit and offset is the parsed offset; with
both keys present and a failing parse it returns ParseError carrying the
parse failure (the limit value is parsed first); otherwise it returns
MissingParameters. -/
theorem extract_pagination_complete (params : List (String × String)) :
    ((∃ p, extract_pagination params = .ok p) ↔
      ∃ ls os lv ov, params.lookup "limit" = some ls
        ∧ params.lookup "offset" = some os
        ∧ parseU32 ls = .ok lv ∧ parseU32 os = .ok ov)
  ∧ (∀ ls os lv ov, params.lookup "limit" = some ls →
      params.lookup "offset" = some os →
      parseU32 ls = .ok lv → parseU32 os = .ok ov →
      extract_pagination params = .ok ⟨some lv, ov⟩)
  ∧ (∀ ls os e, params.lookup "limit" = some ls →
      params.lookup "offset" = some os →
      parseU32 ls = .error e →
      extract_pagination params = .error (.ParseError e))
  ∧ (∀ ls os lv e, params.lookup "limit" = some ls →
      params.lookup "offset" = some os →
      parseU32 ls = .ok lv → parseU32 os = .error e →
      extract_pagination params = .error (.ParseError e))
  ∧ ((params.lookup "limit" = none ∨ params.lookup "offset" = none) →
      extract_pagination params = .error .MissingParameters) := by
  have hok : ∀ ls os lv ov, params.lookup "limit" = some ls →
      params.lookup "offset" = some os →
      parseU32 ls = .ok lv → parseU32 os = .ok ov →
      extract_pagination params = .ok ⟨some lv, ov⟩ := by
    intro ls os lv ov hl ho hpl hpo
    rw [extract_pagination_of_present params ls os hl ho, hpl, hpo]
  have herr1 : ∀ ls os e, params.lookup "limit" = some ls →
      params.lookup "offset" = some os →
      parseU32 ls = .error e →
      extract_pagination params = .error (.ParseError e) := by
    intro ls os e hl ho hpl
    rw [extract_pagination_of_present params ls os hl ho, hpl]
  have herr2 : ∀ ls os lv e, params.lookup "limit" = some ls →
      params.lookup "offset" = some os →
      parseU32 ls = .ok lv → parseU32 os = .error e →
      extract_pagination params = .error (.ParseError e) := by
    intro ls os lv e hl ho hpl hpo
    rw [extract_pagination_of_present params ls os hl ho, hpl, hpo]
  have hmiss : (params.lookup "limit" = none ∨ params.lookup "offset" = none) →
      extract_pagination params = .error .MissingParameters := by
    intro h
    unfold extract_pagination containsKey
    rcases h with h | h <;> simp [h]
  refine ⟨⟨?_, ?_⟩, hok, herr1, herr2, hmiss⟩
  · rintro ⟨p, hp⟩
    cases hl : params.lookup "limit" with
    | none => rw [hmiss (Or.inl hl)] at hp; exact Except.noConfusion hp
    | some ls =>
      cases ho : params.lookup "offset" with
      | none => rw [hmiss (Or.inr ho)] at hp; exact Except.noConfusion hp
      | some os =>
        cases hpl : parseU32 ls with
        | error e =>
          rw [herr1 ls os e hl ho hpl] at hp
          exact Except.noConfusion hp
        | ok lv =>
          cases hpo : parseU32 os with
          | error e =>
            rw [herr2 ls os lv e hl ho hpl hpo] at hp
            exact Except.noConfusion hp
          | ok ov => exact ⟨ls, os, lv, ov, rfl, rfl, hpl, hpo⟩
  · rintro ⟨ls, os, lv, ov, hl, ho, hpl, hpo⟩
    exact ⟨⟨some lv, ov⟩, hok ls os lv ov hl ho hpl hpo⟩

/-- Witness for C10 on concrete parameter maps. -/
theorem extract_pagination_complete_witness :
    extract_pagination [("limit", "1"), ("offset", "10")] = .ok ⟨some 1, 10⟩
  ∧ extract_pagination [("limit", "a"), ("offset", "10")]
      = .error (.ParseError .invalidDigit)
  ∧ extract_pagination [("offset", "10")] = .error .MissingParameters :=
  ⟨(extract_pagination_complete [("limit", "1"), ("offset", "10")]).2.1
      "1" "10" 1 10 rfl rfl rfl rfl,
    (extract_pagination_complete [("limit", "a"), ("offset", "10")]).2.2.1
      "a" "10" .invalidDigit rfl rfl rfl,
    (extract_pagination_complete [("offset", "10")]).2.2.2.2 (Or.inl rfl)⟩
